import Mathlib

/-!
Verification of the DeFi yield/sentiment pipeline (dex-defi-bot).

Modelling conventions for the shallow embedding:

* Python floats are modelled as exact rationals (`ℚ`).  None of the
  properties verified here depends on binary floating-point rounding.
* Python `dict.get(k, default)` on upstream JSON objects is modelled by
  `Option` fields together with `Option.getD`.
* The source formats numbers into display strings (`format_percentage`,
  `format_currency`) at the boundary of each returned record, and in two
  places re-parses such a string back into a float
  (`float(s.replace('%',''))`).  Numeric record fields in this embedding
  hold the raw value that the source formats; every re-parse site applies
  `q2`, which models the information loss of the two-decimal rendering
  followed by `float` parsing.
* The upstream HTTP fetch of each operation is modelled by an `Option`
  payload argument: `none` stands for a non-success status or a transport
  error (both of which the source collapses into its failure branch).
* The process-global TTL cache (`_cache` in helpers.py) is modelled as a
  function from keys to optional entries, with the current wall-clock time
  (`time.time()`) passed explicitly.
-/

namespace DexBot

/-- Models the round trip `float(format_percentage(x).replace('%',''))`
(and likewise the two-decimal currency rendering): the value is rounded to
two decimal places.  Exact-half ties (which concrete binary floats resolve
by round-half-even) never occur in the inputs of the claims below. -/
def q2 (x : ℚ) : ℚ := (round (x * 100) : ℤ) / 100

/-- Models the one-decimal rendering `f"{risk_score:.1f}"` used for the
displayed risk score. -/
def q1 (x : ℚ) : ℚ := (round (x * 10) : ℤ) / 10

/-- Argument of `calculate_risk_score` (helpers.py).  `num q` is a numeric
value; `nonNum` is any value whose use in the function's arithmetic raises
`TypeError`/`ValueError` (the class of invalid inputs that the claim and
the source's `except (TypeError, ValueError)` clause describe). -/
inductive NumArg
  | num (q : ℚ)
  | nonNum
deriving DecidableEq

namespace NumArg

/-- The numeric payload of a `NumArg`, defined only to state theorems. -/
def val : NumArg → ℚ
  | num q => q
  | nonNum => 0

/-- Whether the argument is numeric. -/
def isNum : NumArg → Prop
  | num _ => True
  | nonNum => False

instance : DecidablePred isNum := fun a => by cases a <;> simp [isNum] <;> infer_instance

end NumArg

/-- helpers.py, `calculate_risk_score` (lines 89-102).  The numeric branch
mirrors the `try` body; if any argument is non-numeric the arithmetic
raises and the `except (TypeError, ValueError)` branch returns 5. -/
def calculate_risk_score (volatility liquidity protocol_age : NumArg) : ℚ :=
  match volatility, liquidity, protocol_age with
  | .num v, .num l, .num a =>
      let vol_score := min 10 (v * 10)
      let liq_score := max 0 (10 - l / 1000000)
      let age_score := max 0 (10 - a / 30)
      let risk_score := vol_score * (1/2) + liq_score * (3/10) + age_score * (1/5)
      min 10 (max 0 risk_score)
  | _, _, _ => 5

/-- One entry of the helpers.py `_cache` map: the stored value together
with its absolute expiry timestamp (`time.time() + timeout`). -/
structure CacheEntry (α : Type) where
  data : α
  expires : ℚ
deriving DecidableEq

/-- The process-global `_cache` dictionary, as a map from string keys to
optional entries. -/
def Cache (α : Type) := String → Option (CacheEntry α)

/-- helpers.py, `cache_result` (lines 57-62): store `result` under `key`
with absolute expiry `now + timeout`. -/
def cache_result (c : Cache α) (key : String) (result : α) (timeout : ℚ) (now : ℚ) :
    Cache α :=
  fun k => if k = key then some ⟨result, now + timeout⟩ else c k

/-- helpers.py, `get_cached_result` (lines 64-72): return the stored value
if present and unexpired; an expired entry is deleted and `None` returned.
The second component is the cache after the (possible) lazy deletion. -/
def get_cached_result (c : Cache α) (key : String) (now : ℚ) :
    Option α × Cache α :=
  match c key with
  | some entry =>
      if now < entry.expires then (some entry.data, c)
      else (none, fun k => if k = key then none else c k)
  | none => (none, c)

/-- One pool object of the DeFiLlama listing (the JSON array under `data`).
Fields the source reads with `pool.get(...)` are `Option`s; the defaults
used by the source are applied through the `…D` projections below. -/
structure Pool where
  name : Option String
  project : Option String
  chain : Option String
  apy : Option ℚ
  tvlUsd : Option ℚ
  volatility : Option ℚ
  ilRisk : Option String
deriving DecidableEq

namespace Pool

/-- `pool.get('apy', 0)`. -/
def apyD (p : Pool) : ℚ := p.apy.getD 0

/-- `pool.get('tvlUsd', 0)`. -/
def tvlUsdD (p : Pool) : ℚ := p.tvlUsd.getD 0

/-- `pool.get('volatility', 0.5)`. -/
def volatilityD (p : Pool) : ℚ := p.volatility.getD (1/2)

end Pool

/-- Sort relation used for every `sorted(…, key=lambda x: x.get('apy', 0),
reverse=True)` call: descending APY.  Python's sort and `insertionSort`
are both stable, so this models the source's ordering exactly. -/
def apy_ge (a b : Pool) : Prop := b.apyD ≤ a.apyD

instance : DecidableRel apy_ge := fun a b =>
  inferInstanceAs (Decidable (b.apyD ≤ a.apyD))

instance : IsTotal Pool apy_ge := ⟨fun a b => le_total b.apyD a.apyD⟩

instance : IsTrans Pool apy_ge := ⟨fun _ _ _ h1 h2 => le_trans h2 h1⟩

/-- The record shape built by both `get_top_yields` (lines 64-72) and
`get_yield_recommendations` (lines 258-266): identical key sets.  Numeric
fields hold the raw values that the source renders with
`format_percentage` / `format_currency` / `f"{…:.1f}/10"`. -/
structure YieldRecord where
  name : String
  protocol : String
  chain : String
  apy : ℚ
  tvl : ℚ
  risk_score : ℚ
  url : String
deriving DecidableEq

/-- Record construction shared by `get_top_yields` lines 57-72 and
`get_yield_recommendations` lines 237-266 (the latter recomputes the same
risk score it stored on the pool dict). -/
def topYieldRecord (pool : Pool) : YieldRecord :=
  let volatility := pool.volatilityD
  let liquidity := pool.tvlUsdD
  let protocol_age : ℚ := 365
  let risk_score :=
    calculate_risk_score (.num volatility) (.num liquidity) (.num protocol_age)
  { name := pool.name.getD "Unknown"
    protocol := pool.project.getD "Unknown"
    chain := pool.chain.getD "Unknown"
    apy := pool.apyD
    tvl := pool.tvlUsdD
    risk_score := risk_score
    url := "https://defillama.com/yields?project=" ++ pool.project.getD "" }

/-- The chain filter of `get_top_yields` line 43: `if chain and
pool.get('chain') != chain: continue`.  Python truthiness makes both
`None` and the empty string skip the filter. -/
def chain_matches (chain : Option String) (p : Pool) : Bool :=
  match chain with
  | none => true
  | some c => if c = "" then true else p.chain == some c

/-- yield_service.py `get_top_yields` lines 36-53: filter by TVL and
chain, sort by APY descending, take the first `limit` pools. -/
def top_pools (limit : ℕ) (min_tvl : ℚ) (chain : Option String)
    (pools : List Pool) : List Pool :=
  let filtered_pools :=
    pools.filter fun p => decide (min_tvl ≤ p.tvlUsdD) && chain_matches chain p
  let sorted_pools := filtered_pools.insertionSort apy_ge
  sorted_pools.take limit

/-- yield_service.py `get_top_yields` lines 20-77, success path: the
formatted records of the filtered/sorted/truncated pool list. -/
def get_top_yields (limit : ℕ) (min_tvl : ℚ) (chain : Option String)
    (pools : List Pool) : List YieldRecord :=
  (top_pools limit min_tvl chain pools).map topYieldRecord

/-- The record shape of `get_yield_by_protocol` lines 112-118
(keys `name`, `chain`, `apy`, `tvl`, `url`). -/
structure ProtocolYieldRecord where
  name : String
  chain : String
  apy : ℚ
  tvl : ℚ
  url : String
deriving DecidableEq

/-- yield_service.py `get_yield_by_protocol` lines 100-107:
case-insensitive exact match on `project`, sort by APY descending,
truncate. -/
def protocol_pools (protocol_name : String) (limit : ℕ)
    (pools : List Pool) : List Pool :=
  let protocol_pools :=
    pools.filter fun p => (p.project.getD "").toLower == protocol_name.toLower
  (protocol_pools.insertionSort apy_ge).take limit

/-- yield_service.py `get_yield_by_protocol` lines 110-118, one record. -/
def protocolYieldRecord (protocol_name : String) (p : Pool) :
    ProtocolYieldRecord :=
  { name := p.name.getD "Unknown"
    chain := p.chain.getD "Unknown"
    apy := p.apyD
    tvl := p.tvlUsdD
    url := "https://defillama.com/yields?project=" ++ protocol_name }

/-- yield_service.py `get_yield_by_protocol` lines 85-123, success path. -/
def get_yield_by_protocol (protocol_name : String) (limit : ℕ)
    (pools : List Pool) : List ProtocolYieldRecord :=
  (protocol_pools protocol_name limit pools).map
    (protocolYieldRecord protocol_name)

/-- The record shape of `get_yield_by_chain` lines 158-164. -/
structure ChainYieldRecord where
  name : String
  protocol : String
  apy : ℚ
  tvl : ℚ
  url : String
deriving DecidableEq

/-- yield_service.py `get_yield_by_chain` lines 131-169, success path. -/
def get_yield_by_chain (chain_name : String) (limit : ℕ)
    (pools : List Pool) : List ChainYieldRecord :=
  let chain_pools :=
    pools.filter fun p => (p.chain.getD "").toLower == chain_name.toLower
  let sorted_pools := chain_pools.insertionSort apy_ge
  (sorted_pools.take limit).map fun p =>
    { name := p.name.getD "Unknown"
      protocol := p.project.getD "Unknown"
      apy := p.apyD
      tvl := p.tvlUsdD
      url := "https://defillama.com/yields?chain=" ++ chain_name }

/-- The dict returned by `get_yield_comparison` lines 188-197.  The
`…_avg_apy` and `difference` fields hold the raw means / signed difference
that the source passes to `format_percentage`. -/
structure ComparisonRecord where
  protocol1 : String
  protocol1_avg_apy : ℚ
  protocol1_pools : ℕ
  protocol2 : String
  protocol2_avg_apy : ℚ
  protocol2_pools : ℕ
  difference : ℚ
  winner : String
deriving DecidableEq

/-- Mean APY over one protocol's records, lines 185-186:
`sum(float(p['apy'].replace('%','')) …) / len(…) if … else 0`.  The parse
of the formatted string is modelled by `q2`. -/
def avg_apy (records : List ProtocolYieldRecord) : ℚ :=
  if records = [] then 0
  else (records.map fun p => q2 p.apy).sum / records.length

/-- yield_service.py `get_yield_comparison` lines 183-197, given the two
`get_yield_by_protocol` results. -/
def yield_comparison_of (protocol1 protocol2 : String)
    (protocol1_yields protocol2_yields : List ProtocolYieldRecord) :
    ComparisonRecord :=
  let protocol1_avg_apy := avg_apy protocol1_yields
  let protocol2_avg_apy := avg_apy protocol2_yields
  { protocol1 := protocol1
    protocol1_avg_apy := protocol1_avg_apy
    protocol1_pools := protocol1_yields.length
    protocol2 := protocol2
    protocol2_avg_apy := protocol2_avg_apy
    protocol2_pools := protocol2_yields.length
    difference := protocol1_avg_apy - protocol2_avg_apy
    winner := if protocol1_avg_apy > protocol2_avg_apy then protocol1
              else protocol2 }

/-- yield_service.py `get_yield_comparison` lines 177-197 over a fixed
pool listing (both inner `get_yield_by_protocol` calls use the default
`limit=5`). -/
def get_yield_comparison (protocol1 protocol2 : String)
    (pools : List Pool) : ComparisonRecord :=
  yield_comparison_of protocol1 protocol2
    (get_yield_by_protocol protocol1 5 pools)
    (get_yield_by_protocol protocol2 5 pools)

/-- yield_service.py `get_yield_recommendations` lines 209-216: the fixed
risk-tolerance lookup table, with lookup on `risk_tolerance.lower()` and
the medium pair as default.  First component `min_tvl`, second
`max_volatility`. -/
def risk_params (risk_tolerance : String) : ℚ × ℚ :=
  let rt := risk_tolerance.toLower
  if rt = "low" then (10000000, 3/10)
  else if rt = "medium" then (1000000, 3/5)
  else if rt = "high" then (100000, 1)
  else (1000000, 3/5)

/-- yield_service.py `get_yield_recommendations` lines 226-253: filter on
the table-derived TVL and volatility thresholds, sort by APY descending,
truncate.  The `min_tvl` parameter of the Python signature is not read by
the body (only `params['min_tvl']` is), so it does not appear here. -/
def recommendation_pools (risk_tolerance : String) (limit : ℕ)
    (pools : List Pool) : List Pool :=
  let params := risk_params risk_tolerance
  let filtered_pools :=
    pools.filter fun p =>
      decide (params.1 ≤ p.tvlUsdD) && decide (p.volatilityD ≤ params.2)
  (filtered_pools.insertionSort apy_ge).take limit

/-- yield_service.py `get_yield_recommendations` lines 206-268, success
path.  The signature keeps the unused `min_tvl` parameter of the source. -/
def get_yield_recommendations (risk_tolerance : String) (min_tvl : ℚ)
    (limit : ℕ) (pools : List Pool) : List YieldRecord :=
  (recommendation_pools risk_tolerance limit pools).map topYieldRecord

/-- `get_top_yields` including its failure branches (lines 78-83): a
non-success status or an exception (`fetch = none`) returns `[]`. -/
def get_top_yields_op (limit : ℕ) (min_tvl : ℚ) (chain : Option String)
    (fetch : Option (List Pool)) : List YieldRecord :=
  match fetch with
  | some pools => get_top_yields limit min_tvl chain pools
  | none => []

/-- `get_yield_by_protocol` including its failure branches (124-129). -/
def get_yield_by_protocol_op (protocol_name : String) (limit : ℕ)
    (fetch : Option (List Pool)) : List ProtocolYieldRecord :=
  match fetch with
  | some pools => get_yield_by_protocol protocol_name limit pools
  | none => []

/-- `get_yield_by_chain` including its failure branches (170-175). -/
def get_yield_by_chain_op (chain_name : String) (limit : ℕ)
    (fetch : Option (List Pool)) : List ChainYieldRecord :=
  match fetch with
  | some pools => get_yield_by_chain chain_name limit pools
  | none => []

/-- `get_yield_recommendations` including its failure branches (269-274). -/
def get_yield_recommendations_op (risk_tolerance : String) (min_tvl : ℚ)
    (limit : ℕ) (fetch : Option (List Pool)) : List YieldRecord :=
  match fetch with
  | some pools => get_yield_recommendations risk_tolerance min_tvl limit pools
  | none => []

/-- `get_yield_comparison` at the fetch level.  The source function has no
code path that returns `None`: on upstream failure both inner calls return
`[]` and the normal record (means 0) is built; the `except` at lines
198-204 would return an error dict, but its `try` body cannot raise in
this embedding because the `apy` strings produced by
`get_yield_by_protocol` always parse.  The result type is `Option` only so
that the spec's "absent" is expressible; the definition always returns
`some`. -/
def get_yield_comparison_op (protocol1 protocol2 : String)
    (fetch : Option (List Pool)) : Option ComparisonRecord :=
  some (yield_comparison_of protocol1 protocol2
    (get_yield_by_protocol_op protocol1 5 fetch)
    (get_yield_by_protocol_op protocol2 5 fetch))

/-- The five sentiment labels of trading_service.py. -/
inductive Sentiment
  | very_bullish
  | bullish
  | neutral
  | bearish
  | very_bearish
deriving DecidableEq

/-- The `type` field of a trading-signal dict. -/
inductive SignalType
  | short_term
  | medium_term
  | long_term
  | general
deriving DecidableEq

/-- The `signal` field of a trading-signal dict. -/
inductive SignalKind
  | strong_buy
  | buy
  | strong_sell
  | sell
  | buy_dip
  | sell_rally
  | take_profit
  | accumulate
  | neutral
deriving DecidableEq

/-- One entry of the `signals` list of `get_trading_signals` (the `reason`
string, an f-string over already-stated data, is not modelled). -/
structure TradeSignal where
  type : SignalType
  signal : SignalKind
deriving DecidableEq

/-- Rank used to state the fixed short/medium/long/general emission order
of the signals list. -/
def signalTypeRank : SignalType → ℕ
  | .short_term => 0
  | .medium_term => 1
  | .long_term => 2
  | .general => 3

/-- trading_service.py `get_trading_signals` lines 210-273: the signal
list built from the three parsed percentage changes.  The source appends
each fired rule to a `signals` list across three independent `if/elif`
blocks (none of whose conditions reads `signals`), so the list is the
concatenation of the three blocks' contributions in execution order,
with the `neutral` fallback when nothing fired (lines 267-273). -/
def trading_signal_list (change_24h change_7d change_30d : ℚ) :
    List TradeSignal :=
  let short_term :=
    if change_24h > 5 then [(⟨.short_term, .strong_buy⟩ : TradeSignal)]
    else if change_24h > 2 then [⟨.short_term, .buy⟩]
    else if change_24h < -5 then [⟨.short_term, .strong_sell⟩]
    else if change_24h < -2 then [⟨.short_term, .sell⟩]
    else []
  let medium_term :=
    if change_7d > 0 ∧ change_24h < 0 then
      [(⟨.medium_term, .buy_dip⟩ : TradeSignal)]
    else if change_7d < 0 ∧ change_24h > 0 then
      [⟨.medium_term, .sell_rally⟩]
    else []
  let long_term :=
    if change_30d > 20 then [(⟨.long_term, .take_profit⟩ : TradeSignal)]
    else if change_30d < -20 then [⟨.long_term, .accumulate⟩]
    else []
  let signals := short_term ++ medium_term ++ long_term
  if signals = [] then [⟨.general, .neutral⟩] else signals

/-- The dict returned by `get_token_sentiment` lines 174-184.  The
`change_…` fields hold the raw percentages that the source renders with
`format_percentage` (consumers re-parse them through `q2`). -/
structure TokenSentimentRecord where
  name : String
  symbol : String
  sentiment : Sentiment
  price : ℚ
  change_24h : ℚ
  change_7d : ℚ
  change_30d : ℚ
  market_cap : ℚ
  volume_24h : ℚ
deriving DecidableEq

/-- The `market_data` object of the CoinGecko per-token detail response.
The nested `{'usd': …}` sub-objects are flattened to single fields. -/
structure MarketData where
  price_change_percentage_24h : Option ℚ
  price_change_percentage_7d : Option ℚ
  price_change_percentage_30d : Option ℚ
  current_price_usd : Option ℚ
  market_cap_usd : Option ℚ
  total_volume_usd : Option ℚ
deriving DecidableEq

/-- The `community_data` object of the per-token detail response. -/
structure CommunityData where
  reddit_subscribers : Option ℕ
  twitter_followers : Option ℕ
deriving DecidableEq

/-- The per-token detail response consumed by `get_token_sentiment`. -/
structure CoinDetail where
  name : Option String
  symbol : Option String
  market_data : MarketData
  community_data : CommunityData
deriving DecidableEq

/-- trading_service.py `get_token_sentiment` lines 121-195: weighted
sentiment score, community bonus, threshold label, result record.
`fetch = none` models a non-success status or transport error. -/
def get_token_sentiment (fetch : Option CoinDetail) :
    Option TokenSentimentRecord :=
  match fetch with
  | none => none
  | some data =>
      let md := data.market_data
      let cd := data.community_data
      let price_change_24h := md.price_change_percentage_24h.getD 0
      let price_change_7d := md.price_change_percentage_7d.getD 0
      let price_change_30d := md.price_change_percentage_30d.getD 0
      let base_score := price_change_24h * (1/2) + price_change_7d * (3/10)
        + price_change_30d * (1/5)
      let sentiment_score :=
        if 100000 < cd.reddit_subscribers.getD 0
            ∨ 500000 < cd.twitter_followers.getD 0 then
          base_score + 1
        else base_score
      let sentiment :=
        if sentiment_score > 10 then Sentiment.very_bullish
        else if sentiment_score > 5 then Sentiment.bullish
        else if sentiment_score < -10 then Sentiment.very_bearish
        else if sentiment_score < -5 then Sentiment.bearish
        else Sentiment.neutral
      some { name := data.name.getD "Unknown"
             symbol := (data.symbol.getD "Unknown").toUpper
             sentiment := sentiment
             price := md.current_price_usd.getD 0
             change_24h := price_change_24h
             change_7d := price_change_7d
             change_30d := price_change_30d
             market_cap := md.market_cap_usd.getD 0
             volume_24h := md.total_volume_usd.getD 0 }

/-- The dict returned by `get_trading_signals` lines 275-280. -/
structure TradingSignalsRecord where
  name : String
  symbol : String
  price : ℚ
  signals : List TradeSignal
deriving DecidableEq

/-- trading_service.py `get_trading_signals` lines 197-283: re-parse the
formatted changes of the sentiment record (modelled by `q2`) and build the
signal list; `None` from `get_token_sentiment` propagates. -/
def get_trading_signals (fetch : Option CoinDetail) :
    Option TradingSignalsRecord :=
  match get_token_sentiment fetch with
  | none => none
  | some token_data =>
      let change_24h := q2 token_data.change_24h
      let change_7d := q2 token_data.change_7d
      let change_30d := q2 token_data.change_30d
      some { name := token_data.name
             symbol := token_data.symbol
             price := token_data.price
             signals := trading_signal_list change_24h change_7d change_30d }

/-- The three confidence levels. -/
inductive Confidence
  | low
  | medium
  | high
deriving DecidableEq

/-- The reasoning strings appended by `get_yield_entry_recommendation`,
one constructor per append site (lines 313, 319, 325/329, 333). -/
inductive ReasoningLine
  | positive_signals
  | accumulation_zone
  | sentiment_line (s : Sentiment)
  | no_strong_signals
deriving DecidableEq

/-- The dict returned by `get_yield_entry_recommendation` lines 300-335. -/
structure EntryRecommendation where
  name : String
  symbol : String
  price : ℚ
  enter_now : Bool
  confidence : Confidence
  reasoning : List ReasoningLine
deriving DecidableEq

/-- trading_service.py `get_yield_entry_recommendation` lines 295-335:
the sequential mutation of the recommendation dict, given the sentiment
label and the signal list.  Each `let` mirrors one `if` block of the
source, in source order. -/
def yield_entry_core (name symbol : String) (price : ℚ)
    (sentiment : Sentiment) (signals : List TradeSignal) :
    EntryRecommendation :=
  let signal_types := signals.map TradeSignal.signal
  let rec0 : EntryRecommendation :=
    { name := name, symbol := symbol, price := price
      enter_now := false, confidence := .low, reasoning := [] }
  let rec1 :=
    if signal_types.contains .strong_buy ∨ signal_types.contains .buy
        ∨ signal_types.contains .buy_dip then
      { rec0 with enter_now := true, confidence := .medium
                  reasoning := rec0.reasoning ++ [.positive_signals] }
    else rec0
  let rec2 :=
    if signal_types.contains .accumulate then
      { rec1 with enter_now := true, confidence := .high
                  reasoning := rec1.reasoning ++ [.accumulation_zone] }
    else rec1
  let rec3 :=
    if sentiment = .bullish ∨ sentiment = .very_bullish then
      { rec2 with
          confidence := if rec2.enter_now then .high else rec2.confidence
          reasoning := rec2.reasoning ++ [.sentiment_line sentiment] }
    else if sentiment = .bearish ∨ sentiment = .very_bearish then
      { rec2 with enter_now := false, confidence := .high
                  reasoning := rec2.reasoning ++ [.sentiment_line sentiment] }
    else rec2
  if rec3.reasoning = [] then
    { rec3 with reasoning := [.no_strong_signals] }
  else rec3

/-- trading_service.py `get_yield_entry_recommendation` lines 285-338:
both inner calls consume the same per-token upstream response; either
returning `None` propagates `None`. -/
def get_yield_entry_recommendation (fetch : Option CoinDetail) :
    Option EntryRecommendation :=
  match get_token_sentiment fetch, get_trading_signals fetch with
  | some token_data, some ts =>
      some (yield_entry_core token_data.name token_data.symbol
        token_data.price token_data.sentiment ts.signals)
  | _, _ => none

/-- The per-token object of the CoinGecko simple-price response. -/
structure SimplePrice where
  usd : Option ℚ
  usd_24h_change : Option ℚ
deriving DecidableEq

/-- The dict returned by `get_token_price` lines 35-38. -/
structure TokenPriceRecord where
  price : ℚ
  change_24h : ℚ
deriving DecidableEq

/-- trading_service.py `get_token_price` lines 17-52: the simple-price
response is a map from token ids; an unknown token or a failed fetch
returns `None`. -/
def get_token_price (token_id : String)
    (fetch : Option (List (String × SimplePrice))) :
    Option TokenPriceRecord :=
  match fetch with
  | none => none
  | some data =>
      match data.lookup token_id with
      | none => none
      | some token_data =>
          some { price := token_data.usd.getD 0
                 change_24h := token_data.usd_24h_change.getD 0 }

/-- One coin of the CoinGecko markets listing used by
`get_market_sentiment`. -/
structure MarketCoin where
  name : Option String
  symbol : Option String
  price_change_percentage_24h : Option ℚ
deriving DecidableEq

/-- One formatted gainer/loser entry (lines 95-99 / 102-106). -/
structure CoinBrief where
  name : String
  symbol : String
  change_24h : ℚ
deriving DecidableEq

/-- The dict returned by `get_market_sentiment` lines 91-108. -/
structure MarketSentimentRecord where
  sentiment : Sentiment
  avg_change_24h : ℚ
  top_gainers : List CoinBrief
  top_losers : List CoinBrief
deriving DecidableEq

/-- trading_service.py `get_market_sentiment` lines 54-119: mean 24h
change over the listing, threshold label, top-3 gainers and bottom-3
losers (Python `[-3:]` is `drop (length - 3)`). -/
def get_market_sentiment (fetch : Option (List MarketCoin)) :
    Option MarketSentimentRecord :=
  match fetch with
  | none => none
  | some data =>
      let total_change :=
        (data.map fun c => c.price_change_percentage_24h.getD 0).sum
      let avg_change := if data = [] then 0 else total_change / data.length
      let sentiment :=
        if avg_change > 5 then Sentiment.very_bullish
        else if avg_change > 2 then Sentiment.bullish
        else if avg_change < -5 then Sentiment.very_bearish
        else if avg_change < -2 then Sentiment.bearish
        else Sentiment.neutral
      let sorted_by_change := data.insertionSort fun a b =>
        b.price_change_percentage_24h.getD 0
          ≤ a.price_change_percentage_24h.getD 0
      let brief := fun (c : MarketCoin) =>
        ({ name := c.name.getD "Unknown"
           symbol := (c.symbol.getD "Unknown").toUpper
           change_24h := c.price_change_percentage_24h.getD 0 } : CoinBrief)
      some { sentiment := sentiment
             avg_change_24h := avg_change
             top_gainers := (sorted_by_change.take 3).map brief
             top_losers :=
               (sorted_by_change.drop (sorted_by_change.length - 3)).map brief }

/-- The cache key of `get_top_yields` line 23
(`f"top_yields_{limit}_{min_tvl}_{chain}"`).  The exact numeric spelling
differs from CPython's, but the key is a deterministic function of the
arguments, which is all the claims use. -/
def top_yields_cache_key (limit : ℕ) (min_tvl : ℚ)
    (chain : Option String) : String :=
  "top_yields_" ++ toString limit ++ "_" ++ toString min_tvl ++ "_"
    ++ (match chain with | none => "None" | some c => c)

/-- The cache key of `get_yield_by_protocol` line 88. -/
def protocol_yields_cache_key (protocol_name : String) (limit : ℕ) :
    String :=
  "protocol_yields_" ++ protocol_name ++ "_" ++ toString limit

/-- `get_top_yields` lines 20-83 with the cache interaction made explicit.
Returns the result list, the cache after the call, and whether an
upstream fetch was performed.  The hit test is line 25's Python truthiness
check `if cached_data:` — a cached empty list fails it.  `cache_timeout`
stands for `Config.CACHE_TIMEOUT` (configuration outside src/, passed as
a parameter). -/
def get_top_yields_cached (limit : ℕ) (min_tvl : ℚ) (chain : Option String)
    (cache : Cache (List YieldRecord)) (now : ℚ)
    (fetch : Option (List Pool)) (cache_timeout : ℚ) :
    List YieldRecord × Cache (List YieldRecord) × Bool :=
  let cache_key := top_yields_cache_key limit min_tvl chain
  let fetched := get_cached_result cache cache_key now
  let fetch_branch := fun (c1 : Cache (List YieldRecord)) =>
    match fetch with
    | some pools =>
        let results := get_top_yields limit min_tvl chain pools
        (results, cache_result c1 cache_key results cache_timeout now, true)
    | none => ([], c1, true)
  match fetched with
  | (some cached_data, c1) =>
      if cached_data = [] then fetch_branch c1 else (cached_data, c1, false)
  | (none, c1) => fetch_branch c1

/-- `get_yield_by_protocol` lines 85-129 with the cache interaction made
explicit, same shape as `get_top_yields_cached`. -/
def get_yield_by_protocol_cached (protocol_name : String) (limit : ℕ)
    (cache : Cache (List ProtocolYieldRecord)) (now : ℚ)
    (fetch : Option (List Pool)) (cache_timeout : ℚ) :
    List ProtocolYieldRecord × Cache (List ProtocolYieldRecord) × Bool :=
  let cache_key := protocol_yields_cache_key protocol_name limit
  let fetched := get_cached_result cache cache_key now
  let fetch_branch := fun (c1 : Cache (List ProtocolYieldRecord)) =>
    match fetch with
    | some pools =>
        let results := get_yield_by_protocol protocol_name limit pools
        (results, cache_result c1 cache_key results cache_timeout now, true)
    | none => ([], c1, true)
  match fetched with
  | (some cached_data, c1) =>
      if cached_data = [] then fetch_branch c1 else (cached_data, c1, false)
  | (none, c1) => fetch_branch c1

/-- The cache key of `get_yield_by_chain` line 134. -/
def chain_yields_cache_key (chain_name : String) (limit : ℕ) : String :=
  "chain_yields_" ++ chain_name ++ "_" ++ toString limit

/-- `get_yield_by_chain` lines 131-175 with the cache interaction made
explicit, same shape as `get_top_yields_cached`. -/
def get_yield_by_chain_cached (chain_name : String) (limit : ℕ)
    (cache : Cache (List ChainYieldRecord)) (now : ℚ)
    (fetch : Option (List Pool)) (cache_timeout : ℚ) :
    List ChainYieldRecord × Cache (List ChainYieldRecord) × Bool :=
  let cache_key := chain_yields_cache_key chain_name limit
  let fetched := get_cached_result cache cache_key now
  let fetch_branch := fun (c1 : Cache (List ChainYieldRecord)) =>
    match fetch with
    | some pools =>
        let results := get_yield_by_chain chain_name limit pools
        (results, cache_result c1 cache_key results cache_timeout now, true)
    | none => ([], c1, true)
  match fetched with
  | (some cached_data, c1) =>
      if cached_data = [] then fetch_branch c1 else (cached_data, c1, false)
  | (none, c1) => fetch_branch c1

/-- `get_yield_recommendations` lines 206-274 in the same cache-threading
shape.  The source body of this operation contains no cache lookup and no
cache store (it never calls `get_cached_result` or `cache_result`), so
the cache passes through unchanged and an upstream fetch occurs on every
call. -/
def get_yield_recommendations_cached (risk_tolerance : String)
    (min_tvl : ℚ) (limit : ℕ) (cache : Cache (List YieldRecord))
    (fetch : Option (List Pool)) :
    List YieldRecord × Cache (List YieldRecord) × Bool :=
  (get_yield_recommendations_op risk_tolerance min_tvl limit fetch,
   cache, true)

/-- C2: for every numeric triple `(volatility, liquidity, protocol_age)`,
`calculate_risk_score` returns a value in the closed interval [0,10] equal
to `clamp(0,10, 0.5*min(10, volatility*10) + 0.3*max(0, 10 -
liquidity/1_000_000) + 0.2*max(0, 10 - protocol_age/30))`; for every
non-numeric input (one raising TypeError/ValueError in that arithmetic) it
returns exactly 5. -/
theorem c2_calculate_risk_score :
    (∀ v l a : ℚ,
      0 ≤ calculate_risk_score (.num v) (.num l) (.num a) ∧
      calculate_risk_score (.num v) (.num l) (.num a) ≤ 10 ∧
      calculate_risk_score (.num v) (.num l) (.num a) =
        min 10 (max 0 ((1/2) * min 10 (v * 10)
          + (3/10) * max 0 (10 - l / 1000000)
          + (1/5) * max 0 (10 - a / 30)))) ∧
    (∀ x y z : NumArg, (¬ x.isNum ∨ ¬ y.isNum ∨ ¬ z.isNum) →
      calculate_risk_score x y z = 5) := by
  constructor
  · intro v l a
    refine ⟨?_, ?_, ?_⟩
    · exact le_min (by norm_num) (le_max_left 0 _)
    · exact min_le_left _ _
    · simp only [calculate_risk_score]
      have h : min 10 (v * 10) * (1/2) + max 0 (10 - l / 1000000) * (3/10)
          + max 0 (10 - a / 30) * (1/5)
          = (1/2) * min 10 (v * 10) + (3/10) * max 0 (10 - l / 1000000)
            + (1/5) * max 0 (10 - a / 30) := by ring
      rw [h]
  · intro x y z h
    cases x <;> cases y <;> cases z <;>
      simp_all [NumArg.isNum, calculate_risk_score]

/-- Witness for C2 at a concrete input: a non-numeric volatility yields 5,
and the numeric triple (1, 5000000, 365) yields 13/2 ∈ [0,10]
(vol 10·0.5 + liq 5·0.3 + age 0·0.2 = 6.5, evaluated below). -/
theorem c2_calculate_risk_score_witness :
    (¬ NumArg.isNum .nonNum ∨ ¬ NumArg.isNum (.num 5000000)
      ∨ ¬ NumArg.isNum (.num 365)) ∧
    calculate_risk_score .nonNum (.num 5000000) (.num 365) = 5 ∧
    0 ≤ calculate_risk_score (.num 1) (.num 5000000) (.num 365) ∧
    calculate_risk_score (.num 1) (.num 5000000) (.num 365) = 13/2 := by
  refine ⟨Or.inl (by simp [NumArg.isNum]),
    c2_calculate_risk_score.2 _ _ _ (Or.inl (by simp [NumArg.isNum])),
    (c2_calculate_risk_score.1 1 5000000 365).1, ?_⟩
  norm_num [calculate_risk_score, min_def, max_def]

/-- C3: over a fixed pool listing, the signed `difference` of
`compare(A, B)` is the negation of that of `compare(B, A)`, and when the
two mean APYs are exactly equal the `winner` is the second operand
(strict `>` comparison). -/
theorem c3_comparison_antisymmetry (protocol1 protocol2 : String)
    (pools : List Pool) :
    (get_yield_comparison protocol1 protocol2 pools).difference =
      -(get_yield_comparison protocol2 protocol1 pools).difference ∧
    (avg_apy (get_yield_by_protocol protocol1 5 pools) =
        avg_apy (get_yield_by_protocol protocol2 5 pools) →
      (get_yield_comparison protocol1 protocol2 pools).winner = protocol2) := by
  constructor
  · simp only [get_yield_comparison, yield_comparison_of]
    ring
  · intro h
    simp [get_yield_comparison, yield_comparison_of, h]

/-- Witness for C3: on the empty listing both means are 0, so the winner
of `compare("aave", "compound")` is `"compound"`. -/
theorem c3_comparison_antisymmetry_witness :
    avg_apy (get_yield_by_protocol "aave" 5 []) =
      avg_apy (get_yield_by_protocol "compound" 5 []) ∧
    (get_yield_comparison "aave" "compound" []).winner = "compound" :=
  ⟨rfl, (c3_comparison_antisymmetry "aave" "compound" []).2 rfl⟩

/-- C6 counterexample: on an upstream fetch failure (`fetch = none`) the
single-record operation `get_yield_comparison` does not return the absent
sentinel — it returns a populated comparison record. -/
theorem c6_comparison_not_absent :
    get_yield_comparison_op "aave" "compound" none ≠ none := by
  simp [get_yield_comparison_op]

/-- C6 (amended): on an upstream fetch failure every list-returning
operation returns the empty list and every single-record operation of the
sentiment pipeline returns absent, but `get_yield_comparison` instead
returns a comparison record computed from two empty pool lists: both
means 0, both pool counts 0, difference 0, winner the second protocol. -/
theorem c6_failure_sentinels (limit : ℕ) (min_tvl : ℚ)
    (chain : Option String)
    (protocol_name chain_name risk_tolerance token_id p1 p2 : String) :
    get_top_yields_op limit min_tvl chain none = [] ∧
    get_yield_by_protocol_op protocol_name limit none = [] ∧
    get_yield_by_chain_op chain_name limit none = [] ∧
    get_yield_recommendations_op risk_tolerance min_tvl limit none = [] ∧
    get_token_price token_id none = none ∧
    get_market_sentiment none = none ∧
    get_token_sentiment none = none ∧
    get_trading_signals none = none ∧
    get_yield_entry_recommendation none = none ∧
    get_yield_comparison_op p1 p2 none =
      some { protocol1 := p1, protocol1_avg_apy := 0, protocol1_pools := 0,
             protocol2 := p2, protocol2_avg_apy := 0, protocol2_pools := 0,
             difference := 0, winner := p2 } := by
  refine ⟨rfl, rfl, rfl, rfl, rfl, rfl, rfl, rfl, rfl, ?_⟩
  simp [get_yield_comparison_op, get_yield_by_protocol_op,
    yield_comparison_of, avg_apy]

/-- C7: a `put(k, v, ttl)` at time `t0` followed by `get(k)` before the
TTL has elapsed returns `v`; once the TTL has elapsed, `get(k)` returns
absent and removes the entry from the map, and a subsequent `put` on the
same key stores a fresh entry. -/
theorem c7_cache_ttl {α : Type} (c : Cache α) (k : String) (v v2 : α)
    (ttl ttl2 t0 t1 t2 t3 : ℚ) :
    (t1 < t0 + ttl →
      (get_cached_result (cache_result c k v ttl t0) k t1).1 = some v) ∧
    (t0 + ttl ≤ t2 →
      (get_cached_result (cache_result c k v ttl t0) k t2).1 = none ∧
      (get_cached_result (cache_result c k v ttl t0) k t2).2 k = none ∧
      cache_result
        (get_cached_result (cache_result c k v ttl t0) k t2).2
        k v2 ttl2 t3 k = some ⟨v2, t3 + ttl2⟩) := by
  constructor
  · intro h
    simp [get_cached_result, cache_result, h]
  · intro h
    have hn : ¬ t2 < t0 + ttl := not_lt.mpr h
    refine ⟨?_, ?_, ?_⟩ <;> simp [get_cached_result, cache_result, hn]

/-- Witness for C7 with `ttl = 2`: a get at `t = 1` hits, a get at `t = 2`
misses and deletes, and a fresh put stores a new entry. -/
theorem c7_cache_ttl_witness :
    ((1:ℚ) < 0 + 2 ∧
      (get_cached_result
        (cache_result (fun _ => (none : Option (CacheEntry ℕ))) "k" 7 2 0)
        "k" 1).1 = some 7) ∧
    ((0:ℚ) + 2 ≤ 2 ∧
      (get_cached_result
        (cache_result (fun _ => (none : Option (CacheEntry ℕ))) "k" 7 2 0)
        "k" 2).1 = none ∧
      cache_result
        (get_cached_result
          (cache_result (fun _ => (none : Option (CacheEntry ℕ))) "k" 7 2 0)
          "k" 2).2
        "k" 9 3 5 "k" = some ⟨9, 5 + 3⟩) := by
  have h := c7_cache_ttl (fun _ => (none : Option (CacheEntry ℕ))) "k" 7 9
    2 3 0 1 2 5
  exact ⟨⟨by norm_num, h.1 (by norm_num)⟩,
    ⟨by norm_num, (h.2 (by norm_num)).1, (h.2 (by norm_num)).2.2⟩⟩

/-- C9: the `min_tvl` parameter of `get_yield_recommendations` is never
read — for a fixed risk tolerance, limit and upstream response, any two
values of the argument produce the same result. -/
theorem c9_min_tvl_not_read (risk_tolerance : String) (v1 v2 : ℚ)
    (limit : ℕ) (fetch : Option (List Pool)) :
    get_yield_recommendations_op risk_tolerance v1 limit fetch =
      get_yield_recommendations_op risk_tolerance v2 limit fetch := rfl

/-- C1: `top_yields` returns at most `limit` records, each coming from a
pool with `tvlUsd >= min_tvl` whose chain equals a given (non-empty —
Python truthiness treats `""` like `None`) `chain` argument, and records
are ordered by descending APY of the underlying pools. -/
theorem c1_get_top_yields (pools : List Pool) (limit : ℕ) (min_tvl : ℚ)
    (chain : Option String) :
    (get_top_yields limit min_tvl chain pools).length ≤ limit ∧
    get_top_yields limit min_tvl chain pools =
      (top_pools limit min_tvl chain pools).map topYieldRecord ∧
    (∀ p ∈ top_pools limit min_tvl chain pools,
      p ∈ pools ∧ min_tvl ≤ p.tvlUsdD ∧
      ∀ c, chain = some c → c ≠ "" → p.chain = some c) ∧
    (top_pools limit min_tvl chain pools).Sorted apy_ge := by
  refine ⟨?_, rfl, ?_, ?_⟩
  · simp only [get_top_yields, top_pools, List.length_map]
    exact List.length_take_le _ _
  · intro p hp
    simp only [top_pools] at hp
    have hp2 := (List.mem_insertionSort apy_ge).mp (List.mem_of_mem_take hp)
    rw [List.mem_filter] at hp2
    obtain ⟨hmem, hpred⟩ := hp2
    rw [Bool.and_eq_true, decide_eq_true_eq] at hpred
    refine ⟨hmem, hpred.1, ?_⟩
    intro c hc hne
    have hcm := hpred.2
    rw [hc] at hcm
    simp only [chain_matches, if_neg hne] at hcm
    exact beq_iff_eq.mp hcm
  · simp only [top_pools]
    exact List.Pairwise.sublist (List.take_sublist _ _)
      (List.sorted_insertionSort apy_ge _)

/-- Sample pool on Ethereum with high TVL, used by witnesses. -/
def samplePoolEth : Pool :=
  { name := some "USDC-ETH", project := some "aave", chain := some "ethereum",
    apy := some 8, tvlUsd := some 5000000, volatility := none, ilRisk := none }

/-- Sample pool on Solana, used by witnesses. -/
def samplePoolSol : Pool :=
  { name := some "SOL-USDC", project := some "orca", chain := some "solana",
    apy := some 12, tvlUsd := some 2000000, volatility := none, ilRisk := none }

/-- Sample pool with TVL below every threshold, used by witnesses. -/
def samplePoolTiny : Pool :=
  { name := some "TINY", project := some "newproto", chain := some "ethereum",
    apy := some 50, tvlUsd := some 100, volatility := none, ilRisk := none }

/-- Witness for C1: on a three-pool listing with `chain = "ethereum"` and
`min_tvl = 1000000`, the surviving pool is on Ethereum with sufficient
TVL, and at most `limit` records are returned. -/
theorem c1_get_top_yields_witness :
    samplePoolEth ∈ top_pools 5 1000000 (some "ethereum")
      [samplePoolSol, samplePoolEth, samplePoolTiny] ∧
    "ethereum" ≠ "" ∧
    (get_top_yields 5 1000000 (some "ethereum")
      [samplePoolSol, samplePoolEth, samplePoolTiny]).length ≤ 5 ∧
    samplePoolEth.chain = some "ethereum" ∧
    (1000000 : ℚ) ≤ samplePoolEth.tvlUsdD := by
  have hmem : samplePoolEth ∈ top_pools 5 1000000 (some "ethereum")
      [samplePoolSol, samplePoolEth, samplePoolTiny] := by decide
  have h := c1_get_top_yields [samplePoolSol, samplePoolEth, samplePoolTiny]
    5 1000000 (some "ethereum")
  have h3 := h.2.2.1 samplePoolEth hmem
  exact ⟨hmem, by decide, h.1,
    h3.2.2 "ethereum" rfl (by decide), h3.2.1⟩

/-- C8: `recommendations` selects the `(min_tvl, max_volatility)` pair
low→(10M, 0.3), medium→(1M, 0.6), high→(100K, 1.0) (lookup on the
lower-cased tolerance), any unrecognized value mapping to the medium pair;
every pool in the result satisfies both thresholds (volatility defaulted
to 0.5), and results are sorted by APY descending and truncated to
`limit`. -/
theorem c8_get_yield_recommendations (risk_tolerance : String)
    (min_tvl : ℚ) (limit : ℕ) (pools : List Pool) :
    (risk_tolerance.toLower = "low" →
      risk_params risk_tolerance = (10000000, 3/10)) ∧
    (risk_tolerance.toLower = "medium" →
      risk_params risk_tolerance = (1000000, 3/5)) ∧
    (risk_tolerance.toLower = "high" →
      risk_params risk_tolerance = (100000, 1)) ∧
    (risk_tolerance.toLower ≠ "low" → risk_tolerance.toLower ≠ "medium" →
      risk_tolerance.toLower ≠ "high" →
      risk_params risk_tolerance = (1000000, 3/5)) ∧
    (get_yield_recommendations risk_tolerance min_tvl limit pools).length
      ≤ limit ∧
    get_yield_recommendations risk_tolerance min_tvl limit pools =
      (recommendation_pools risk_tolerance limit pools).map topYieldRecord ∧
    (∀ p ∈ recommendation_pools risk_tolerance limit pools,
      p ∈ pools ∧ (risk_params risk_tolerance).1 ≤ p.tvlUsdD ∧
      p.volatilityD ≤ (risk_params risk_tolerance).2) ∧
    (recommendation_pools risk_tolerance limit pools).Sorted apy_ge := by
  refine ⟨?_, ?_, ?_, ?_, ?_, rfl, ?_, ?_⟩
  · intro h; rw [risk_params]; simp only [h]; rfl
  · intro h; rw [risk_params]; simp only [h]; rfl
  · intro h; rw [risk_params]; simp only [h]; rfl
  · intro h1 h2 h3; rw [risk_params]
    simp only [if_neg h1, if_neg h2, if_neg h3]
  · simp only [get_yield_recommendations, recommendation_pools,
      List.length_map]
    exact List.length_take_le _ _
  · intro p hp
    simp only [recommendation_pools] at hp
    have hp2 := (List.mem_insertionSort apy_ge).mp (List.mem_of_mem_take hp)
    rw [List.mem_filter] at hp2
    obtain ⟨hmem, hpred⟩ := hp2
    rw [Bool.and_eq_true, decide_eq_true_eq, decide_eq_true_eq] at hpred
    exact ⟨hmem, hpred.1, hpred.2⟩
  · simp only [recommendation_pools]
    exact List.Pairwise.sublist (List.take_sublist _ _)
      (List.sorted_insertionSort apy_ge _)

/-- Sample low-volatility pool, used by the C8 witness. -/
def samplePoolCalm : Pool :=
  { name := some "3POOL", project := some "curve", chain := some "ethereum",
    apy := some 5, tvlUsd := some 20000000, volatility := some 0,
    ilRisk := none }

/-- Sample high-volatility pool, used by the C8 witness. -/
def samplePoolWild : Pool :=
  { name := some "WILD", project := some "degen", chain := some "base",
    apy := some 90, tvlUsd := some 200000, volatility := some 2,
    ilRisk := none }

/-- Witness for C8: tolerance `"high"` selects (100000, 1); on a two-pool
listing the calm pool survives and satisfies both thresholds; the
unrecognized tolerance `"Aggressive"` maps to the medium pair. -/
theorem c8_get_yield_recommendations_witness :
    "high".toLower = "high" ∧
    risk_params "high" = (100000, 1) ∧
    samplePoolCalm ∈ recommendation_pools "high" 5
      [samplePoolWild, samplePoolCalm] ∧
    (risk_params "high").1 ≤ samplePoolCalm.tvlUsdD ∧
    samplePoolCalm.volatilityD ≤ (risk_params "high").2 ∧
    (get_yield_recommendations "high" 1000000 5
      [samplePoolWild, samplePoolCalm]).length ≤ 5 ∧
    risk_params "Aggressive" = (1000000, 3/5) := by
  have h := c8_get_yield_recommendations "high" 1000000 5
    [samplePoolWild, samplePoolCalm]
  have hhigh : "high".toLower = "high" := by
    rw [String.toLower, String.map_eq]; rfl
  have hrp : risk_params "high" = (100000, 1) := h.2.2.1 hhigh
  have hmem : samplePoolCalm ∈ recommendation_pools "high" 5
      [samplePoolWild, samplePoolCalm] := by
    simp only [recommendation_pools, hrp]
    decide
  have h7 := h.2.2.2.2.2.2.1 samplePoolCalm hmem
  have ha1 : "Aggressive".toLower ≠ "low" := by
    rw [String.toLower, String.map_eq]; decide
  have ha2 : "Aggressive".toLower ≠ "medium" := by
    rw [String.toLower, String.map_eq]; decide
  have ha3 : "Aggressive".toLower ≠ "high" := by
    rw [String.toLower, String.map_eq]; decide
  exact ⟨hhigh, hrp, hmem, h7.2.1, h7.2.2, h.2.2.2.2.1,
    (c8_get_yield_recommendations "Aggressive" 1000000 5 []).2.2.2.1
      ha1 ha2 ha3⟩

/-- C5: if the sentiment label is bearish or very bearish the entry
recommendation is `enter_now = false` with `confidence = high`, even when
the signal list contains accumulate, buy, buy_dip or strong_buy — the
bearish rule is evaluated last and wins any conflict. -/
theorem c5_bearish_blocks_entry (name symbol : String) (price : ℚ)
    (sentiment : Sentiment) (signals : List TradeSignal)
    (h : sentiment = .bearish ∨ sentiment = .very_bearish) :
    (yield_entry_core name symbol price sentiment signals).enter_now
      = false ∧
    (yield_entry_core name symbol price sentiment signals).confidence
      = .high := by
  have hnb : ¬ (sentiment = .bullish ∨ sentiment = .very_bullish) := by
    rcases h with h | h <;> subst h <;> simp
  simp only [yield_entry_core, if_neg hnb, if_pos h]
  constructor <;> split_ifs <;> rfl

/-- Witness for C5: bearish sentiment with both an accumulate and a buy
signal present still yields `enter_now = false, confidence = high`. -/
theorem c5_bearish_blocks_entry_witness :
    (Sentiment.bearish = Sentiment.bearish
      ∨ Sentiment.bearish = Sentiment.very_bearish) ∧
    (yield_entry_core "Bitcoin" "BTC" 50000 .bearish
      [⟨.long_term, .accumulate⟩, ⟨.short_term, .buy⟩]).enter_now
      = false ∧
    (yield_entry_core "Bitcoin" "BTC" 50000 .bearish
      [⟨.long_term, .accumulate⟩, ⟨.short_term, .buy⟩]).confidence
      = .high := by
  have h := c5_bearish_blocks_entry "Bitcoin" "BTC" 50000 .bearish
    [⟨.long_term, .accumulate⟩, ⟨.short_term, .buy⟩] (Or.inl rfl)
  exact ⟨Or.inl rfl, h.1, h.2⟩

/-- Strong-buy membership with the elif guards as they appear in the
code (first branch, hence unguarded). -/
theorem mem_tsl_strong_buy (c24 c7 c30 : ℚ) :
    (⟨.short_term, .strong_buy⟩ : TradeSignal)
      ∈ trading_signal_list c24 c7 c30 ↔ c24 > 5 := by
  simp only [trading_signal_list]
  split_ifs <;> simp_all

/-- Buy membership with the elif guard of the preceding branch. -/
theorem mem_tsl_buy (c24 c7 c30 : ℚ) :
    (⟨.short_term, .buy⟩ : TradeSignal)
      ∈ trading_signal_list c24 c7 c30 ↔ (¬ c24 > 5 ∧ c24 > 2) := by
  simp only [trading_signal_list]
  split_ifs <;> simp_all

/-- Strong-sell membership with the elif guards of preceding branches. -/
theorem mem_tsl_strong_sell (c24 c7 c30 : ℚ) :
    (⟨.short_term, .strong_sell⟩ : TradeSignal)
      ∈ trading_signal_list c24 c7 c30 ↔
      (¬ c24 > 5 ∧ ¬ c24 > 2 ∧ c24 < -5) := by
  simp only [trading_signal_list]
  split_ifs <;> simp_all

/-- Sell membership with the elif guards of preceding branches. -/
theorem mem_tsl_sell (c24 c7 c30 : ℚ) :
    (⟨.short_term, .sell⟩ : TradeSignal)
      ∈ trading_signal_list c24 c7 c30 ↔
      (¬ c24 > 5 ∧ ¬ c24 > 2 ∧ ¬ c24 < -5 ∧ c24 < -2) := by
  simp only [trading_signal_list]
  split_ifs <;> simp_all

/-- Buy-dip membership (first branch of the medium-term block). -/
theorem mem_tsl_buy_dip (c24 c7 c30 : ℚ) :
    (⟨.medium_term, .buy_dip⟩ : TradeSignal)
      ∈ trading_signal_list c24 c7 c30 ↔ (c7 > 0 ∧ c24 < 0) := by
  simp only [trading_signal_list]
  split_ifs <;> simp_all

/-- Sell-rally membership with the elif guard of the buy-dip branch. -/
theorem mem_tsl_sell_rally (c24 c7 c30 : ℚ) :
    (⟨.medium_term, .sell_rally⟩ : TradeSignal)
      ∈ trading_signal_list c24 c7 c30 ↔
      (¬ (c7 > 0 ∧ c24 < 0) ∧ c7 < 0 ∧ c24 > 0) := by
  simp only [trading_signal_list]
  split_ifs <;> simp_all

/-- Take-profit membership (first branch of the long-term block). -/
theorem mem_tsl_take_profit (c24 c7 c30 : ℚ) :
    (⟨.long_term, .take_profit⟩ : TradeSignal)
      ∈ trading_signal_list c24 c7 c30 ↔ c30 > 20 := by
  simp only [trading_signal_list]
  split_ifs <;> simp_all

/-- Accumulate membership with the elif guard of the take-profit branch. -/
theorem mem_tsl_accumulate (c24 c7 c30 : ℚ) :
    (⟨.long_term, .accumulate⟩ : TradeSignal)
      ∈ trading_signal_list c24 c7 c30 ↔ (¬ c30 > 20 ∧ c30 < -20) := by
  simp only [trading_signal_list]
  split_ifs <;> simp_all

/-- The signal list is never empty. -/
theorem tsl_ne_nil (c24 c7 c30 : ℚ) :
    trading_signal_list c24 c7 c30 ≠ [] := by
  simp only [trading_signal_list]
  split_ifs <;> simp_all

/-- The signal list is emitted in short/medium/long/general order. -/
theorem tsl_pairwise (c24 c7 c30 : ℚ) :
    (trading_signal_list c24 c7 c30).Pairwise
      (fun a b => signalTypeRank a.type ≤ signalTypeRank b.type) := by
  simp only [trading_signal_list]
  split_ifs <;> simp [signalTypeRank]

set_option maxHeartbeats 1000000 in
/-- The signal list is exactly `[neutral]` iff none of the eight rule
conditions (with their elif guards) fires. -/
theorem tsl_neutral_iff (c24 c7 c30 : ℚ) :
    trading_signal_list c24 c7 c30 = [⟨.general, .neutral⟩] ↔
      (¬ c24 > 5 ∧ ¬ c24 > 2 ∧ ¬ c24 < -5 ∧ ¬ c24 < -2 ∧
       ¬ (c7 > 0 ∧ c24 < 0) ∧ ¬ (c7 < 0 ∧ c24 > 0) ∧
       ¬ c30 > 20 ∧ ¬ c30 < -20) := by
  simp only [trading_signal_list]
  split_ifs <;> simp_all

/-- C4: the signal list contains exactly the rule-triggered signals —
strong_buy/buy/strong_sell/sell from the 24h change at thresholds ±5/±2
(elif chain), buy_dip when 7d>0 and 24h<0, sell_rally when 7d<0 and
24h>0, take_profit when 30d>20, accumulate when 30d<-20 — in fixed
short/medium/long order; it is never empty, equalling exactly
`[neutral]` when no rule fires.  At changes (-6, 3, 25) it contains
strong_sell, buy_dip and take_profit. -/
theorem c4_trading_signal_list :
    (∀ change_24h change_7d change_30d : ℚ,
      trading_signal_list change_24h change_7d change_30d ≠ [] ∧
      (trading_signal_list change_24h change_7d change_30d).Pairwise
        (fun a b => signalTypeRank a.type ≤ signalTypeRank b.type) ∧
      ((⟨.short_term, .strong_buy⟩ : TradeSignal)
          ∈ trading_signal_list change_24h change_7d change_30d ↔
        change_24h > 5) ∧
      ((⟨.short_term, .buy⟩ : TradeSignal)
          ∈ trading_signal_list change_24h change_7d change_30d ↔
        (change_24h > 2 ∧ ¬ change_24h > 5)) ∧
      ((⟨.short_term, .strong_sell⟩ : TradeSignal)
          ∈ trading_signal_list change_24h change_7d change_30d ↔
        change_24h < -5) ∧
      ((⟨.short_term, .sell⟩ : TradeSignal)
          ∈ trading_signal_list change_24h change_7d change_30d ↔
        (change_24h < -2 ∧ ¬ change_24h < -5)) ∧
      ((⟨.medium_term, .buy_dip⟩ : TradeSignal)
          ∈ trading_signal_list change_24h change_7d change_30d ↔
        (change_7d > 0 ∧ change_24h < 0)) ∧
      ((⟨.medium_term, .sell_rally⟩ : TradeSignal)
          ∈ trading_signal_list change_24h change_7d change_30d ↔
        (change_7d < 0 ∧ change_24h > 0)) ∧
      ((⟨.long_term, .take_profit⟩ : TradeSignal)
          ∈ trading_signal_list change_24h change_7d change_30d ↔
        change_30d > 20) ∧
      ((⟨.long_term, .accumulate⟩ : TradeSignal)
          ∈ trading_signal_list change_24h change_7d change_30d ↔
        change_30d < -20) ∧
      (trading_signal_list change_24h change_7d change_30d
          = [⟨.general, .neutral⟩] ↔
        (¬ change_24h > 2 ∧ ¬ change_24h < -2 ∧
         ¬ (change_7d > 0 ∧ change_24h < 0) ∧
         ¬ (change_7d < 0 ∧ change_24h > 0) ∧
         ¬ change_30d > 20 ∧ ¬ change_30d < -20))) ∧
    ((⟨.short_term, .strong_sell⟩ : TradeSignal)
        ∈ trading_signal_list (-6) 3 25 ∧
     (⟨.medium_term, .buy_dip⟩ : TradeSignal)
        ∈ trading_signal_list (-6) 3 25 ∧
     (⟨.long_term, .take_profit⟩ : TradeSignal)
        ∈ trading_signal_list (-6) 3 25) := by
  constructor
  · intro change_24h change_7d change_30d
    refine ⟨tsl_ne_nil _ _ _, tsl_pairwise _ _ _, mem_tsl_strong_buy _ _ _,
      ?_, ?_, ?_, mem_tsl_buy_dip _ _ _, ?_, mem_tsl_take_profit _ _ _,
      ?_, ?_⟩
    · rw [mem_tsl_buy]; exact and_comm
    · rw [mem_tsl_strong_sell]
      exact ⟨fun h => h.2.2, fun h => ⟨by linarith, by linarith, h⟩⟩
    · rw [mem_tsl_sell]
      exact ⟨fun h => ⟨h.2.2.2, h.2.2.1⟩,
        fun h => ⟨by linarith, by linarith, h.2, h.1⟩⟩
    · rw [mem_tsl_sell_rally]
      constructor
      · exact fun h => h.2
      · intro h
        exact ⟨fun hc => by linarith [hc.1, h.1], h⟩
    · rw [mem_tsl_accumulate]
      exact ⟨fun h => h.2, fun h => ⟨by linarith, h⟩⟩
    · rw [tsl_neutral_iff]
      constructor
      · exact fun h => ⟨h.2.1, h.2.2.2.1, h.2.2.2.2.1, h.2.2.2.2.2.1,
          h.2.2.2.2.2.2.1, h.2.2.2.2.2.2.2⟩
      · intro h
        exact ⟨fun hh => h.1 (by linarith), h.1,
          fun hh => h.2.1 (by linarith), h.2.1, h.2.2.1, h.2.2.2.1,
          h.2.2.2.2.1, h.2.2.2.2.2⟩
  · exact ⟨by decide, by decide, by decide⟩

/-- Witness for C4 at concrete inputs: the (-6, 3, 25) scenario signals,
nonemptiness at (0, 0, 0), and the strong-buy rule fired at 24h = +6. -/
theorem c4_trading_signal_list_witness :
    (⟨.short_term, .strong_sell⟩ : TradeSignal)
      ∈ trading_signal_list (-6) 3 25 ∧
    (⟨.medium_term, .buy_dip⟩ : TradeSignal)
      ∈ trading_signal_list (-6) 3 25 ∧
    (⟨.long_term, .take_profit⟩ : TradeSignal)
      ∈ trading_signal_list (-6) 3 25 ∧
    trading_signal_list 0 0 0 ≠ [] ∧
    ((6:ℚ) > 5 ∧
      (⟨.short_term, .strong_buy⟩ : TradeSignal)
        ∈ trading_signal_list 6 0 0) :=
  ⟨c4_trading_signal_list.2.1, c4_trading_signal_list.2.2.1,
   c4_trading_signal_list.2.2.2, (c4_trading_signal_list.1 0 0 0).1,
   by norm_num,
   (c4_trading_signal_list.1 6 0 0).2.2.1.mpr (by norm_num)⟩

/-- C10 counterexample: `get_yield_recommendations` — a pipeline
operation — never stores anything in the cache.  After a successful fetch
whose result list is empty, the cache is still empty at every key,
refuting the claim that every pipeline operation stores the empty list
it fetched. -/
theorem c10_recommendations_never_cached :
    (get_yield_recommendations_cached "medium" 1000000 5 (fun _ => none)
      (some [])).1 = [] ∧
    (get_yield_recommendations_cached "medium" 1000000 5 (fun _ => none)
        (some [])).2.1
      = (fun _ => (none : Option (CacheEntry (List YieldRecord)))) :=
  ⟨rfl, rfl⟩

/-- C10 (amended): each caching pipeline operation treats a cached falsy
value as a cache miss: a successful fetch producing an empty result list
stores it in the cache, but a subsequent call with identical arguments
within the TTL fails the truthiness hit test (`if cached_data:`) and
fetches upstream again — proved for all three caching list-returning
operations, `get_top_yields`, `get_yield_by_protocol` and
`get_yield_by_chain`.  `get_yield_recommendations` performs no caching at
all: the cache passes through unchanged and every call fetches upstream. -/
theorem c10_cached_empty_list_refetch
    (limit : ℕ) (min_tvl : ℚ) (chain : Option String)
    (protocol_name chain_name risk_tolerance : String)
    (c : Cache (List YieldRecord)) (cp : Cache (List ProtocolYieldRecord))
    (cc : Cache (List ChainYieldRecord)) (crec : Cache (List YieldRecord))
    (t0 t1 cache_timeout : ℚ) (pools : List Pool)
    (fetch2 fetch3 : Option (List Pool))
    (hmiss : c (top_yields_cache_key limit min_tvl chain) = none)
    (hempty : get_top_yields limit min_tvl chain pools = [])
    (hmiss2 : cp (protocol_yields_cache_key protocol_name limit) = none)
    (hempty2 : get_yield_by_protocol protocol_name limit pools = [])
    (hmiss3 : cc (chain_yields_cache_key chain_name limit) = none)
    (hempty3 : get_yield_by_chain chain_name limit pools = [])
    (hfresh : t1 < t0 + cache_timeout) :
    (get_top_yields_cached limit min_tvl chain c t0 (some pools)
      cache_timeout).1 = [] ∧
    (get_top_yields_cached limit min_tvl chain c t0 (some pools)
        cache_timeout).2.1 (top_yields_cache_key limit min_tvl chain)
      = some ⟨[], t0 + cache_timeout⟩ ∧
    (get_top_yields_cached limit min_tvl chain
      (get_top_yields_cached limit min_tvl chain c t0 (some pools)
        cache_timeout).2.1
      t1 fetch2 cache_timeout).2.2 = true ∧
    (get_yield_by_protocol_cached protocol_name limit cp t0 (some pools)
      cache_timeout).1 = [] ∧
    (get_yield_by_protocol_cached protocol_name limit cp t0 (some pools)
        cache_timeout).2.1 (protocol_yields_cache_key protocol_name limit)
      = some ⟨[], t0 + cache_timeout⟩ ∧
    (get_yield_by_protocol_cached protocol_name limit
      (get_yield_by_protocol_cached protocol_name limit cp t0 (some pools)
        cache_timeout).2.1
      t1 fetch2 cache_timeout).2.2 = true ∧
    (get_yield_by_chain_cached chain_name limit cc t0 (some pools)
      cache_timeout).1 = [] ∧
    (get_yield_by_chain_cached chain_name limit cc t0 (some pools)
        cache_timeout).2.1 (chain_yields_cache_key chain_name limit)
      = some ⟨[], t0 + cache_timeout⟩ ∧
    (get_yield_by_chain_cached chain_name limit
      (get_yield_by_chain_cached chain_name limit cc t0 (some pools)
        cache_timeout).2.1
      t1 fetch2 cache_timeout).2.2 = true ∧
    (get_yield_recommendations_cached risk_tolerance min_tvl limit crec
      fetch3).2.1 = crec ∧
    (get_yield_recommendations_cached risk_tolerance min_tvl limit crec
      fetch3).2.2 = true := by
  refine ⟨?_, ?_, ?_, ?_, ?_, ?_, ?_, ?_, ?_, rfl, rfl⟩
  · simp [get_top_yields_cached, get_cached_result, hmiss, hempty]
  · simp [get_top_yields_cached, get_cached_result, cache_result,
      hmiss, hempty]
  · cases fetch2 <;>
      simp [get_top_yields_cached, get_cached_result, cache_result,
        hmiss, hempty, hfresh]
  · simp [get_yield_by_protocol_cached, get_cached_result, hmiss2, hempty2]
  · simp [get_yield_by_protocol_cached, get_cached_result, cache_result,
      hmiss2, hempty2]
  · cases fetch2 <;>
      simp [get_yield_by_protocol_cached, get_cached_result, cache_result,
        hmiss2, hempty2, hfresh]
  · simp [get_yield_by_chain_cached, get_cached_result, hmiss3, hempty3]
  · simp [get_yield_by_chain_cached, get_cached_result, cache_result,
      hmiss3, hempty3]
  · cases fetch2 <;>
      simp [get_yield_by_chain_cached, get_cached_result, cache_result,
        hmiss3, hempty3, hfresh]

/-- Witness for C10: an empty listing makes the first call of each
caching operation store `[]` under its cache key; a second call 10
seconds later (TTL 300) still fetches upstream; and the recommendations
operation leaves the cache untouched. -/
theorem c10_cached_empty_list_refetch_witness :
    ((fun _ => (none : Option (CacheEntry (List YieldRecord))))
      (top_yields_cache_key 3 1000000 none) = none) ∧
    get_top_yields 3 1000000 none [] = [] ∧
    get_yield_by_protocol "aave" 3 [] = [] ∧
    get_yield_by_chain "ethereum" 3 [] = [] ∧
    ((10:ℚ) < 0 + 300) ∧
    (get_top_yields_cached 3 1000000 none (fun _ => none) 0 (some [])
      300).1 = [] ∧
    (get_top_yields_cached 3 1000000 none
      (get_top_yields_cached 3 1000000 none (fun _ => none) 0 (some [])
        300).2.1
      10 none 300).2.2 = true ∧
    (get_yield_by_chain_cached "ethereum" 3
      (get_yield_by_chain_cached "ethereum" 3 (fun _ => none) 0 (some [])
        300).2.1
      10 none 300).2.2 = true ∧
    (get_yield_recommendations_cached "medium" 1000000 3 (fun _ => none)
      none).2.1 = (fun _ => none) := by
  have h := c10_cached_empty_list_refetch 3 1000000 none "aave" "ethereum"
    "medium" (fun _ => none) (fun _ => none) (fun _ => none)
    (fun _ => none) 0 10 300 [] none none
    rfl rfl rfl rfl rfl rfl (by norm_num)
  exact ⟨rfl, rfl, rfl, rfl, by norm_num, h.1, h.2.2.1,
    h.2.2.2.2.2.2.2.2.1, h.2.2.2.2.2.2.2.2.2.1⟩

end DexBot
